import Mathlib

set_option maxRecDepth 100000

/-!
Shallow embedding of the SoundCheck client service-worker subsystem:
`src/client/src/lib/serviceWorkerManager.ts` (class ServiceWorkerManager) and the
initialization orchestrator `initializeTraceViewer`.

Durations are modelled as rationals (JS numbers restricted to the arithmetic the
code performs: +, *, min, Math.round, Math.pow with natural exponents).
Math.random results are passed in as explicit parameters r with 0 <= r < 1.
The browser event loop is modelled as a small-step transition system: each
event-loop turn that touches the controller state is one step.  Timer handles
and AbortController handles are natural-number ids; the multiset of armed,
unfired poll timeouts and the list of in-flight fetches are tracked explicitly
so that leaked timers and concurrent probes are representable.
-/

/-- Config after the constructor has applied its defaults
(`Required<ServiceWorkerConfig>`, serviceWorkerManager.ts lines 5-12, 30-37). -/
structure SWConfig where
  swUrl : String
  pingEndpoint : String
  maxRetries : Nat
  baseInterval : ℚ
  maxInterval : ℚ
  enableTelemetry : Bool
deriving DecidableEq

/-- The raw constructor argument (`ServiceWorkerConfig`): optional fields are
`Option`; `none` models a JS `undefined` field. -/
structure SWConfigInput where
  swUrl : String
  pingEndpoint : Option String
  maxRetries : Option Nat
  baseInterval : Option ℚ
  maxInterval : Option ℚ
  enableTelemetry : Option Bool

/-- JS `x || dflt` for an optional string: `undefined` and the empty string are
falsy. -/
def orDefaultStr (o : Option String) (dflt : String) : String :=
  match o with
  | some s => if s = "" then dflt else s
  | none => dflt

/-- JS `x || dflt` for an optional natural number: `undefined` and `0` are falsy. -/
def orDefaultNat (o : Option Nat) (dflt : Nat) : Nat :=
  match o with
  | some n => if n = 0 then dflt else n
  | none => dflt

/-- JS `x || dflt` for an optional duration: `undefined` and `0` are falsy. -/
def orDefaultRat (o : Option ℚ) (dflt : ℚ) : ℚ :=
  match o with
  | some x => if x = 0 then dflt else x
  | none => dflt

/-- The constructor body (serviceWorkerManager.ts lines 29-37):
`pingEndpoint: config.pingEndpoint || "/ping"` (the source uses single quotes), `maxRetries: config.maxRetries || 5`,
`baseInterval: config.baseInterval || 30000`, `maxInterval: config.maxInterval || 300000`,
`enableTelemetry: config.enableTelemetry || false`. -/
def mkSWConfig (i : SWConfigInput) : SWConfig where
  swUrl := i.swUrl
  pingEndpoint := orDefaultStr i.pingEndpoint "/ping"
  maxRetries := orDefaultNat i.maxRetries 5
  baseInterval := orDefaultRat i.baseInterval 30000
  maxInterval := orDefaultRat i.maxInterval 300000
  enableTelemetry := match i.enableTelemetry with | some b => b | none => false

/-- RetryState (serviceWorkerManager.ts lines 14-19); `lastAttempt` is
initialized to 0 and never written anywhere in the class. -/
structure RetryState where
  retryCount : Nat
  lastAttempt : ℚ
  nextInterval : ℚ
  isOffline : Bool
deriving DecidableEq

/-- One in-flight fetch: the id of the AbortController whose signal it carries,
and whether that controller has been aborted. -/
structure Probe where
  ctrlId : Nat
  aborted : Bool
deriving DecidableEq

/-- Controller state plus the event-loop resources it interacts with.
`pollTimer` and `abortController` are the two class fields of those names
(holding handle ids); `pendingTimers` is the set of armed, not yet fired poll
timeouts `(id, delay)` actually live in the browser; `liveProbes` the fetches
started and not yet settled; `fetchCount` counts every network request issued.
`saveDataActive` mirrors `navigator.connection.saveData`, read live by
`calculatePollInterval`. -/
structure SWState where
  retryState : RetryState
  isBackgrounded : Bool
  saveDataActive : Bool
  pollTimer : Option Nat
  abortController : Option Nat
  pendingTimers : List (Nat × ℚ)
  liveProbes : List Probe
  fetchCount : Nat
  nextId : Nat
deriving DecidableEq

/-- JS `Math.round`: round half toward positive infinity,
`Math.round(x) = floor(x + 0.5)`. -/
def jsRound (x : ℚ) : ℤ :=
  Rat.floor (x + 1 / 2)

theorem jsRound_eq_round (x : ℚ) : jsRound x = round x := by
  rw [round_eq, jsRound]
  rfl

/-- Models `calculateBackoffDelay` (lines 294-303): exponential delay clamped at
`maxInterval`, then jitter `exponentialDelay * 0.25 * (Math.random() - 0.5)`
added and the sum passed through `Math.round`. -/
def calculateBackoffDelay (c : SWConfig) (retryCount : Nat) (r : ℚ) : ℚ :=
  let exponentialDelay := min (c.baseInterval * 2 ^ retryCount) c.maxInterval
  let jitter := exponentialDelay * (1 / 4) * (r - 1 / 2)
  ((jsRound (exponentialDelay + jitter) : ℤ) : ℚ)

/-- Models `applyBackoff` (lines 271-289).  `retryAfter` is the result of
`parseInt(response.headers.get("Retry-After"))`: `none` when the header is
absent, the empty string, or `parseInt` returned NaN; `some z` when it parsed
to the integer `z` (possibly negative -- `parseInt` accepts a leading minus). -/
def applyBackoff (c : SWConfig) (rs : RetryState) (retryAfter : Option ℤ) (r : ℚ) :
    RetryState :=
  let rs2 := { rs with retryCount := rs.retryCount + 1 }
  match retryAfter with
  | some z => { rs2 with nextInterval := min ((z : ℚ) * 1000) c.maxInterval }
  | none =>
      let backoffDelay := calculateBackoffDelay c rs2.retryCount r
      { rs2 with nextInterval := min backoffDelay c.maxInterval }

/-- Models `calculatePollInterval` (lines 308-325): the delay handed to `setTimeout`,
scaled x4 when backgrounded and x2 when Save-Data is active, each clamped. -/
def calculatePollInterval (c : SWConfig) (s : SWState) : ℚ :=
  let i1 := s.retryState.nextInterval
  let i2 := if s.isBackgrounded then min (i1 * 4) c.maxInterval else i1
  if s.saveDataActive then min (i2 * 2) c.maxInterval else i2

/-- Models `schedulePoll` (lines 197-203): arms a fresh timeout and overwrites the
`pollTimer` field with its handle.  The source does not clear a previously
armed timeout here, so an old pending timer survives (only the field is lost). -/
def schedulePoll (c : SWConfig) (s : SWState) : SWState :=
  { s with
    pendingTimers := s.pendingTimers ++ [(s.nextId, calculatePollInterval c s)]
    pollTimer := some s.nextId
    nextId := s.nextId + 1 }

/-- Models `startPolling` (lines 186-192): no-op when the `pollTimer` field is set. -/
def startPolling (c : SWConfig) (s : SWState) : SWState :=
  if s.pollTimer.isSome then s else schedulePoll c s

/-- First half of `stopPolling` (lines 331-334): `clearTimeout(this.pollTimer)`
and null the field. -/
def clearPollTimer (s : SWState) : SWState :=
  match s.pollTimer with
  | some t =>
      { s with pendingTimers := s.pendingTimers.filter (fun td => td.1 != t)
               pollTimer := none }
  | none => s

/-- Second half of `stopPolling` (lines 336-339): abort the controller held in
the field (marking the fetch carrying its signal) and null the field. -/
def abortInFlight (s : SWState) : SWState :=
  match s.abortController with
  | some a =>
      { s with
        liveProbes :=
          s.liveProbes.map (fun p => if p.ctrlId == a then { p with aborted := true } else p)
        abortController := none }
  | none => s

/-- Models `stopPolling` (lines 330-340). -/
def stopPolling (s : SWState) : SWState :=
  abortInFlight (clearPollTimer s)

/-- Models `resumePolling` (lines 345-351): guarded by
`this.config.pingEndpoint && !this.pollTimer`; resets `nextInterval` to
`baseInterval` and calls `startPolling`. -/
def resumePolling (c : SWConfig) (s : SWState) : SWState :=
  if c.pingEndpoint ≠ "" ∧ s.pollTimer = none then
    startPolling c { s with retryState := { s.retryState with nextInterval := c.baseInterval } }
  else s

/-- Models `adjustPollingForBackground` (lines 356-362). -/
def adjustPollingForBackground (c : SWConfig) (rs : RetryState) : RetryState :=
  { rs with nextInterval := min (rs.nextInterval * 4) c.maxInterval }

/-- Models `adjustPollingForLowBattery` (lines 367-373). -/
def adjustPollingForLowBattery (c : SWConfig) (rs : RetryState) : RetryState :=
  { rs with nextInterval := min (rs.nextInterval * 2) c.maxInterval }

/-- Models `adjustPollingForDataSaving` (lines 378-384). -/
def adjustPollingForDataSaving (c : SWConfig) (rs : RetryState) : RetryState :=
  { rs with nextInterval := min (rs.nextInterval * 3) c.maxInterval }

/-- State right after the constructor (lines 39-47): fresh RetryState; the
Save-Data branch of `setupEventListeners` runs `adjustPollingForDataSaving`
once when `navigator.connection.saveData` is set at construction time. -/
def initState (c : SWConfig) (saveData : Bool) : SWState :=
  let rs : RetryState :=
    { retryCount := 0, lastAttempt := 0, nextInterval := c.baseInterval, isOffline := false }
  { retryState := if saveData then adjustPollingForDataSaving c rs else rs
    isBackgrounded := false
    saveDataActive := saveData
    pollTimer := none
    abortController := none
    pendingTimers := []
    liveProbes := []
    fetchCount := 0
    nextId := 0 }

/-- One event-loop turn touching the controller.  Settlement events carry the
AbortController id of the fetch that settles, the parsed Retry-After value for
5xx, and the `Math.random()` draw used by the jitter. -/
inductive SWEvent where
  | registerOk
  | timerFire (t : Nat)
  | settleOk (p : Nat)
  | settle4xx (p : Nat)
  | settle5xx (p : Nat) (retryAfter : Option ℤ) (r : ℚ)
  | settleTransport (p : Nat) (r : ℚ)
  | offlineEvt
  | onlineEvt
  | visibilityHidden
  | visibilityVisible
  | batteryLow
  | stopCall

/-- The tail of `performPoll` shared by every settlement path
(lines 261-265, the `finally` block): null the `abortController` field and
`schedulePoll`. -/
def settleFinally (c : SWConfig) (s : SWState) : SWState :=
  schedulePoll c { s with abortController := none }

/-- Remove a settled fetch from the in-flight list. -/
def removeProbe (s : SWState) (p : Nat) : SWState :=
  { s with liveProbes := s.liveProbes.filter (fun q => q.ctrlId != p) }

/-- The transition function.  `none` means the event is not enabled in this
state (no such pending timer or live fetch, an aborted fetch cannot settle
with an HTTP status, or the random draw is out of range).

- `registerOk`: `register()` succeeded and reached lines 112-115.
- `timerFire t`: the armed timeout `t` fires and runs `performPoll` up to the
  `fetch` call (lines 208-225); the offline branch reschedules immediately.
- `settle*`: the awaited fetch settles and the rest of `performPoll` runs
  (lines 227-265), ending in the `finally` block.
- `offlineEvt`, `onlineEvt`, `visibilityHidden`, `visibilityVisible`,
  `batteryLow`: the listeners of `setupEventListeners` (lines 49-81).
- `stopCall`: a public `stopPolling()` call. -/
def stepFn (c : SWConfig) (s : SWState) (e : SWEvent) : Option SWState :=
  match e with
  | .registerOk =>
      some (if c.pingEndpoint ≠ "" then startPolling c s else s)
  | .timerFire t =>
      if s.pendingTimers.any (fun td => td.1 == t) then
        let s1 := { s with pendingTimers := s.pendingTimers.filter (fun td => td.1 != t) }
        if s1.retryState.isOffline then
          some (schedulePoll c s1)
        else
          some { s1 with
            abortController := some s1.nextId
            liveProbes := s1.liveProbes ++ [{ ctrlId := s1.nextId, aborted := false }]
            fetchCount := s1.fetchCount + 1
            nextId := s1.nextId + 1 }
      else none
  | .settleOk p =>
      match s.liveProbes.find? (fun q => q.ctrlId == p) with
      | some pr =>
          if pr.aborted then none
          else
            some (settleFinally c
              { removeProbe s p with
                retryState :=
                  { s.retryState with retryCount := 0, nextInterval := c.baseInterval } })
      | none => none
  | .settle4xx p =>
      match s.liveProbes.find? (fun q => q.ctrlId == p) with
      | some pr =>
          if pr.aborted then none
          else
            some (settleFinally c
              { removeProbe s p with
                retryState :=
                  { s.retryState with
                    nextInterval := min (s.retryState.nextInterval * 2) c.maxInterval } })
      | none => none
  | .settle5xx p retryAfter r =>
      match s.liveProbes.find? (fun q => q.ctrlId == p) with
      | some pr =>
          if pr.aborted then none
          else if 0 ≤ r ∧ r < 1 then
            some (settleFinally c
              { removeProbe s p with retryState := applyBackoff c s.retryState retryAfter r })
          else none
      | none => none
  | .settleTransport p r =>
      match s.liveProbes.find? (fun q => q.ctrlId == p) with
      | some _ =>
          if 0 ≤ r ∧ r < 1 then
            some (settleFinally c
              { removeProbe s p with retryState := applyBackoff c s.retryState none r })
          else none
      | none => none
  | .offlineEvt =>
      some (stopPolling { s with retryState := { s.retryState with isOffline := true } })
  | .onlineEvt =>
      some (resumePolling c { s with retryState := { s.retryState with isOffline := false } })
  | .visibilityHidden =>
      some { s with
        isBackgrounded := true
        retryState := adjustPollingForBackground c s.retryState }
  | .visibilityVisible =>
      some (resumePolling c { s with isBackgrounded := false })
  | .batteryLow =>
      some { s with retryState := adjustPollingForLowBattery c s.retryState }
  | .stopCall =>
      some (stopPolling s)

/-- Run a list of events from a state; `none` if some event is not enabled. -/
def runTrace (c : SWConfig) (s : SWState) : List SWEvent → Option SWState
  | [] => some s
  | e :: es =>
      match stepFn c s e with
      | some s1 => runTrace c s1 es
      | none => none

/-- One step of the transition system. -/
def Step (c : SWConfig) (s s2 : SWState) : Prop :=
  ∃ e, stepFn c s e = some s2

/-- Reachability from the freshly constructed controller. -/
def Reachable (c : SWConfig) (saveData : Bool) (s : SWState) : Prop :=
  Relation.ReflTransGen (Step c) (initState c saveData) s

/-- The default configuration: every optional field of the constructor input
left `undefined`. -/
def cDefault : SWConfig :=
  mkSWConfig { swUrl := "/sw.js", pingEndpoint := none, maxRetries := none,
               baseInterval := none, maxInterval := none, enableTelemetry := none }

/-- Outcome the environment hands one `navigator.serviceWorker.register` attempt:
either it resolves, or it rejects with an error carrying `name`.  An activation
timeout (line 137) surfaces as `err "Error"`, a transient failure. -/
inductive RegAttemptOutcome where
  | success
  | err (name : String)
deriving DecidableEq

/-- Models `shouldRetryRegistration` (lines 160-168): permanent error names are never
retried; everything else is retried while `retryState.retryCount < maxRetries`. -/
def shouldRetryRegistration (maxRetries retryCount : Nat) (name : String) : Bool :=
  if name = "SecurityError" ∨ name = "NotSupportedError" then false
  else decide (retryCount < maxRetries)

/-- Models `register` and `retryRegistration` (lines 95-129, 173-181) restricted to the
outcome of the attempt loop: the environment supplies one `RegAttemptOutcome`
per attempt; the result is the resolved value (`some ()` for a registration,
`none` for null) paired with the number of attempts actually made.
`retryRegistration` increments `retryState.retryCount` before recursing. -/
def registerRun (maxRetries : Nat) : Nat → List RegAttemptOutcome → Option Unit × Nat
  | _, [] => (none, 0)
  | _, .success :: _ => (some (), 1)
  | retryCount, .err name :: rest =>
      if shouldRetryRegistration maxRetries retryCount name then
        let res := registerRun maxRetries (retryCount + 1) rest
        (res.1, res.2 + 1)
      else (none, 1)

/-- An attempt outcome that the classifier treats as transient. -/
def isTransientFailure : RegAttemptOutcome → Bool
  | .success => false
  | .err name => !(name = "SecurityError" ∨ name = "NotSupportedError" : Bool)

/-- What `initializeTraceViewer` observes of its environment: the page
protocol, whether `serviceWorker in navigator`, and what
`swManager.register()` resolves to (`register` itself never rejects: its only
await sites sit inside its own try/catch). -/
structure TraceViewerEnv where
  protocol : String
  serviceWorkerSupported : Bool
  registerResult : Option Unit

/-- Result of a call to the orchestrator: the promise resolves with a value,
or rejects with a thrown error message. -/
inductive InitOutcome where
  | value (result : Option Unit)
  | thrown (msg : String)
deriving DecidableEq

/-- The message of the error constructed at lines 31-35 of the orchestrator. -/
def swUnsupportedMessage : String :=
  "Service workers are not supported.\nMake sure to serve the Trace Viewer via HTTPS or localhost."

/-- Models `initializeTraceViewer` (src/unnamed/part_004 lines 16-46 and the
surrounding try/catch): `file:` origins return null; a missing serviceWorker
capability throws (before the try block); a null registration and any caught
error both return null; otherwise the manager/registration pair is returned. -/
def initializeTraceViewer (env : TraceViewerEnv) : InitOutcome :=
  if env.protocol = "file:" then .value none
  else if !env.serviceWorkerSupported then .thrown swUnsupportedMessage
  else
    match env.registerResult with
    | some _ => .value (some ())
    | none => .value none

/-- The for-loop of `unregister` (lines 422-425): each registration returned by
`getRegistrations()` has its own `unregister()` awaited, removing it from the
browser registry. -/
def unregisterAll : List Nat → List Nat → List Nat
  | registry, [] => registry
  | registry, r :: rs => unregisterAll (registry.filter (fun x => x != r)) rs

/-- Models `unregister` (lines 418-427): `stopPolling()` first, then, when the
capability exists, unregister every registration in the browser registry
(`getRegistrations` is origin-wide, not restricted to the one this instance
created). -/
def unregisterModel (s : SWState) (swSupported : Bool) (registry : List Nat) :
    SWState × List Nat :=
  let s2 := stopPolling s
  if swSupported then (s2, unregisterAll registry registry) else (s2, registry)

/-- A successful trace yields reachability. -/
theorem runTrace_reachableFrom {c : SWConfig} :
    ∀ (es : List SWEvent) (s s2 : SWState),
      runTrace c s es = some s2 → Relation.ReflTransGen (Step c) s s2 := by
  intro es
  induction es with
  | nil =>
      intro s s2 h
      cases h
      exact Relation.ReflTransGen.refl
  | cons e es ih =>
      intro s s2 h
      unfold runTrace at h
      cases he : stepFn c s e with
      | none => rw [he] at h; cases h
      | some s1 =>
          rw [he] at h
          exact Relation.ReflTransGen.head ⟨e, he⟩ (ih s1 s2 h)

theorem schedulePoll_retryState (c : SWConfig) (s : SWState) :
    (schedulePoll c s).retryState = s.retryState := rfl

theorem settleFinally_retryState (c : SWConfig) (s : SWState) :
    (settleFinally c s).retryState = s.retryState := rfl

theorem startPolling_retryState (c : SWConfig) (s : SWState) :
    (startPolling c s).retryState = s.retryState := by
  unfold startPolling
  split <;> rfl

theorem clearPollTimer_retryState (s : SWState) :
    (clearPollTimer s).retryState = s.retryState := by
  unfold clearPollTimer
  cases s.pollTimer <;> rfl

theorem abortInFlight_retryState (s : SWState) :
    (abortInFlight s).retryState = s.retryState := by
  unfold abortInFlight
  cases s.abortController <;> rfl

theorem stopPolling_retryState (s : SWState) :
    (stopPolling s).retryState = s.retryState := by
  unfold stopPolling
  rw [abortInFlight_retryState, clearPollTimer_retryState]

theorem applyBackoff_retryCount (c : SWConfig) (rs : RetryState) (ra : Option ℤ) (r : ℚ) :
    (applyBackoff c rs ra r).retryCount = rs.retryCount + 1 := by
  unfold applyBackoff
  cases ra <;> rfl

theorem applyBackoff_nextInterval_le (c : SWConfig) (rs : RetryState) (ra : Option ℤ)
    (r : ℚ) : (applyBackoff c rs ra r).nextInterval ≤ c.maxInterval := by
  unfold applyBackoff
  cases ra <;> exact min_le_right _ _

theorem resumePolling_nextInterval (c : SWConfig) (s : SWState) :
    (resumePolling c s).retryState.nextInterval = c.baseInterval ∨
    (resumePolling c s).retryState = s.retryState := by
  unfold resumePolling
  split
  · left
    rw [startPolling_retryState]
  · right
    rfl

theorem initState_nextInterval_le (c : SWConfig) (sd : Bool)
    (hc : c.baseInterval ≤ c.maxInterval) :
    (initState c sd).retryState.nextInterval ≤ c.maxInterval := by
  unfold initState adjustPollingForDataSaving
  cases sd
  · exact hc
  · exact min_le_right _ _

theorem step_nextInterval_le (c : SWConfig) (hc : c.baseInterval ≤ c.maxInterval)
    (s s2 : SWState) (e : SWEvent) (h : stepFn c s e = some s2)
    (hle : s.retryState.nextInterval ≤ c.maxInterval) :
    s2.retryState.nextInterval ≤ c.maxInterval := by
  cases e with
  | registerOk =>
      simp only [stepFn] at h
      obtain rfl := Option.some_inj.mp h
      split
      · rw [startPolling_retryState]
        exact hle
      · exact hle
  | timerFire t =>
      simp only [stepFn] at h
      split at h
      · split at h <;> (obtain rfl := Option.some_inj.mp h)
        · rw [schedulePoll_retryState]
          exact hle
        · exact hle
      · cases h
  | settleOk p =>
      simp only [stepFn] at h
      split at h
      · split at h
        · cases h
        · obtain rfl := Option.some_inj.mp h
          rw [settleFinally_retryState]
          exact hc
      · cases h
  | settle4xx p =>
      simp only [stepFn] at h
      split at h
      · split at h
        · cases h
        · obtain rfl := Option.some_inj.mp h
          rw [settleFinally_retryState]
          exact min_le_right _ _
      · cases h
  | settle5xx p ra r =>
      simp only [stepFn] at h
      split at h
      · split at h
        · cases h
        · split at h
          · obtain rfl := Option.some_inj.mp h
            rw [settleFinally_retryState]
            exact applyBackoff_nextInterval_le c _ ra r
          · cases h
      · cases h
  | settleTransport p r =>
      simp only [stepFn] at h
      split at h
      · split at h
        · obtain rfl := Option.some_inj.mp h
          rw [settleFinally_retryState]
          exact applyBackoff_nextInterval_le c _ none r
        · cases h
      · cases h
  | offlineEvt =>
      simp only [stepFn] at h
      obtain rfl := Option.some_inj.mp h
      rw [stopPolling_retryState]
      exact hle
  | onlineEvt =>
      simp only [stepFn] at h
      obtain rfl := Option.some_inj.mp h
      rcases resumePolling_nextInterval c
          { s with retryState := { s.retryState with isOffline := false } } with h1 | h1
      · rw [h1]
        exact hc
      · rw [h1]
        exact hle
  | visibilityHidden =>
      simp only [stepFn] at h
      obtain rfl := Option.some_inj.mp h
      exact min_le_right _ _
  | visibilityVisible =>
      simp only [stepFn] at h
      obtain rfl := Option.some_inj.mp h
      rcases resumePolling_nextInterval c { s with isBackgrounded := false } with h1 | h1
      · rw [h1]
        exact hc
      · rw [h1]
        exact hle
  | batteryLow =>
      simp only [stepFn] at h
      obtain rfl := Option.some_inj.mp h
      exact min_le_right _ _
  | stopCall =>
      simp only [stepFn] at h
      obtain rfl := Option.some_inj.mp h
      rw [stopPolling_retryState]
      exact hle

theorem reachable_nextInterval_le (c : SWConfig) (sd : Bool) (s : SWState)
    (hc : c.baseInterval ≤ c.maxInterval) (h : Reachable c sd s) :
    s.retryState.nextInterval ≤ c.maxInterval := by
  unfold Reachable at h
  induction h with
  | refl => exact initState_nextInterval_le c sd hc
  | tail h1 h2 ih =>
      obtain ⟨e, he⟩ := h2
      exact step_nextInterval_le c hc _ _ e he ih

/-- Events whose handler can (re)start the timer chain: a successful
`register()`, the `online` listener, and the visibility listener becoming
visible (both of the latter call `resumePolling`). -/
def armsOnStart : SWEvent → Bool
  | .registerOk => true
  | .onlineEvt => true
  | .visibilityVisible => true
  | _ => false

/-- A step restricted to schedules in which polling is never (re)started while
a probe is still in flight. -/
def GuardedStep (c : SWConfig) (s s2 : SWState) : Prop :=
  ∃ e, stepFn c s e = some s2 ∧ (armsOnStart e = true → s.liveProbes = [])

/-- Reachability under the restriction of `GuardedStep`. -/
def GuardedReachable (c : SWConfig) (saveData : Bool) (s : SWState) : Prop :=
  Relation.ReflTransGen (GuardedStep c) (initState c saveData) s

/-- The single-timer, single-probe invariant, strengthened so that it is
inductive: every armed timer is the one held in the `pollTimer` field, and a
live probe implies no armed timer. -/
def TimerProbeInv (s : SWState) : Prop :=
  s.pendingTimers.length ≤ 1 ∧
  (∀ td ∈ s.pendingTimers, s.pollTimer = some td.1) ∧
  s.liveProbes.length ≤ 1 ∧
  (s.liveProbes ≠ [] → s.pendingTimers = [])

theorem pendingTimers_nil_of_pollTimer_none (s : SWState)
    (h2 : ∀ td ∈ s.pendingTimers, s.pollTimer = some td.1)
    (hn : s.pollTimer = none) : s.pendingTimers = [] := by
  cases hp : s.pendingTimers with
  | nil => rfl
  | cons a l =>
      have ha := h2 a (by rw [hp]; exact List.mem_cons_self a l)
      rw [hn] at ha
      cases ha

theorem eq_singleton_of_mem_of_length_le_one {α : Type} (l : List α) (a : α)
    (hm : a ∈ l) (hl : l.length ≤ 1) : l = [a] := by
  cases l with
  | nil => cases hm
  | cons b bs =>
      cases bs with
      | nil =>
          obtain rfl := List.mem_singleton.mp hm
          rfl
      | cons d ds => simp at hl

theorem schedulePoll_inv (c : SWConfig) (s : SWState) (hp : s.pendingTimers = [])
    (hpr : s.liveProbes = []) : TimerProbeInv (schedulePoll c s) := by
  unfold TimerProbeInv schedulePoll
  refine ⟨?_, ?_, ?_, ?_⟩ <;> simp [hp, hpr]

theorem startPolling_inv (c : SWConfig) (s : SWState) (hI : TimerProbeInv s)
    (hpr : s.liveProbes = []) : TimerProbeInv (startPolling c s) := by
  by_cases hsome : s.pollTimer.isSome = true
  · unfold startPolling
    rw [if_pos hsome]
    exact hI
  · unfold startPolling
    rw [if_neg hsome]
    have hn : s.pollTimer = none := by
      cases hpt : s.pollTimer
      · rfl
      · rw [hpt] at hsome; simp at hsome
    exact schedulePoll_inv c s (pendingTimers_nil_of_pollTimer_none s hI.2.1 hn) hpr

theorem resumePolling_inv (c : SWConfig) (s : SWState) (hI : TimerProbeInv s)
    (hpr : s.liveProbes = []) : TimerProbeInv (resumePolling c s) := by
  unfold resumePolling
  split
  · exact startPolling_inv c _ hI hpr
  · exact hI

theorem abortInFlight_pendingTimers (s : SWState) :
    (abortInFlight s).pendingTimers = s.pendingTimers := by
  unfold abortInFlight
  cases s.abortController <;> rfl

theorem clearPollTimer_liveProbes (s : SWState) :
    (clearPollTimer s).liveProbes = s.liveProbes := by
  unfold clearPollTimer
  cases s.pollTimer <;> rfl

theorem abortInFlight_liveProbes_length (s : SWState) :
    (abortInFlight s).liveProbes.length = s.liveProbes.length := by
  unfold abortInFlight
  cases s.abortController <;> simp

theorem clearPollTimer_pendingTimers (s : SWState) (hI : TimerProbeInv s) :
    (clearPollTimer s).pendingTimers = [] := by
  unfold clearPollTimer
  cases hpt : s.pollTimer with
  | none => exact pendingTimers_nil_of_pollTimer_none s hI.2.1 hpt
  | some t =>
      dsimp only
      cases hp : s.pendingTimers with
      | nil => simp
      | cons a l =>
          have hmem : a ∈ s.pendingTimers := by
            rw [hp]; exact List.mem_cons_self a l
          have ha := hI.2.1 a hmem
          rw [hpt] at ha
          have ha2 : a.1 = t := (Option.some_inj.mp ha).symm
          have hsing : s.pendingTimers = [a] :=
            eq_singleton_of_mem_of_length_le_one _ a hmem hI.1
          rw [hp] at hsing
          cases hsing
          simp [List.filter_cons, ha2]

theorem stopPolling_inv (s : SWState) (hI : TimerProbeInv s) :
    TimerProbeInv (stopPolling s) ∧ (stopPolling s).pendingTimers = [] := by
  have hp : (stopPolling s).pendingTimers = [] := by
    unfold stopPolling
    rw [abortInFlight_pendingTimers, clearPollTimer_pendingTimers s hI]
  refine ⟨⟨?_, ?_, ?_, ?_⟩, hp⟩
  · rw [hp]; simp
  · intro td hmem
    rw [hp] at hmem
    cases hmem
  · show (stopPolling s).liveProbes.length ≤ 1
    unfold stopPolling
    rw [abortInFlight_liveProbes_length, clearPollTimer_liveProbes]
    exact hI.2.2.1
  · intro _
    exact hp

theorem timerProbeInv_set_retryState (s : SWState) (rs : RetryState)
    (hI : TimerProbeInv s) : TimerProbeInv { s with retryState := rs } := hI

theorem timerProbeInv_set_backgrounded (s : SWState) (b : Bool)
    (hI : TimerProbeInv s) : TimerProbeInv { s with isBackgrounded := b } := hI

theorem guardedStep_inv (c : SWConfig) (s s2 : SWState) (e : SWEvent)
    (h : stepFn c s e = some s2) (hg : armsOnStart e = true → s.liveProbes = [])
    (hI : TimerProbeInv s) : TimerProbeInv s2 := by
  cases e with
  | registerOk =>
      have hpr : s.liveProbes = [] := hg rfl
      simp only [stepFn] at h
      obtain rfl := Option.some_inj.mp h
      split
      · exact startPolling_inv c s hI hpr
      · exact hI
  | timerFire t =>
      simp only [stepFn] at h
      split at h
      next hany =>
        obtain ⟨td, hmem, htd⟩ := List.any_eq_true.mp hany
        have htd1 : td.1 = t := by simpa using htd
        have hsing : s.pendingTimers = [td] :=
          eq_singleton_of_mem_of_length_le_one _ td hmem hI.1
        have hprobes : s.liveProbes = [] := by
          by_contra hne
          have h0 := hI.2.2.2 hne
          rw [h0] at hmem
          cases hmem
        have hfil : s.pendingTimers.filter (fun td => td.1 != t) = [] := by
          rw [hsing]
          simp [List.filter_cons, htd1]
        split at h
        · obtain rfl := Option.some_inj.mp h
          exact schedulePoll_inv c _ hfil hprobes
        · obtain rfl := Option.some_inj.mp h
          refine ⟨?_, ?_, ?_, ?_⟩
          · show (s.pendingTimers.filter (fun td => td.1 != t)).length ≤ 1
            rw [hfil]
            simp
          · intro td2 hm2
            have : td2 ∈ ([] : List (Nat × ℚ)) := hfil ▸ hm2
            cases this
          · show (s.liveProbes ++ [({ ctrlId := s.nextId, aborted := false } : Probe)]).length ≤ 1
            rw [hprobes]
            simp
          · intro _
            exact hfil
      next => cases h
  | settleOk p =>
      simp only [stepFn] at h
      split at h
      next pr hf =>
        have hmem := List.mem_of_find?_eq_some hf
        have hpred : (pr.ctrlId == p) = true := by
          simpa using List.find?_some hf
        have hne : s.liveProbes ≠ [] := by
          intro h0; rw [h0] at hmem; cases hmem
        have hp : s.pendingTimers = [] := hI.2.2.2 hne
        have hfil : s.liveProbes.filter (fun q => q.ctrlId != p) = [] := by
          rw [eq_singleton_of_mem_of_length_le_one _ pr hmem hI.2.2.1]
          simp [List.filter_cons, bne, hpred]
        split at h
        · cases h
        · obtain rfl := Option.some_inj.mp h
          exact schedulePoll_inv c _ hp hfil
      next => cases h
  | settle4xx p =>
      simp only [stepFn] at h
      split at h
      next pr hf =>
        have hmem := List.mem_of_find?_eq_some hf
        have hpred : (pr.ctrlId == p) = true := by
          simpa using List.find?_some hf
        have hne : s.liveProbes ≠ [] := by
          intro h0; rw [h0] at hmem; cases hmem
        have hp : s.pendingTimers = [] := hI.2.2.2 hne
        have hfil : s.liveProbes.filter (fun q => q.ctrlId != p) = [] := by
          rw [eq_singleton_of_mem_of_length_le_one _ pr hmem hI.2.2.1]
          simp [List.filter_cons, bne, hpred]
        split at h
        · cases h
        · obtain rfl := Option.some_inj.mp h
          exact schedulePoll_inv c _ hp hfil
      next => cases h
  | settle5xx p ra r =>
      simp only [stepFn] at h
      split at h
      next pr hf =>
        have hmem := List.mem_of_find?_eq_some hf
        have hpred : (pr.ctrlId == p) = true := by
          simpa using List.find?_some hf
        have hne : s.liveProbes ≠ [] := by
          intro h0; rw [h0] at hmem; cases hmem
        have hp : s.pendingTimers = [] := hI.2.2.2 hne
        have hfil : s.liveProbes.filter (fun q => q.ctrlId != p) = [] := by
          rw [eq_singleton_of_mem_of_length_le_one _ pr hmem hI.2.2.1]
          simp [List.filter_cons, bne, hpred]
        split at h
        · cases h
        · split at h
          · obtain rfl := Option.some_inj.mp h
            exact schedulePoll_inv c _ hp hfil
          · cases h
      next => cases h
  | settleTransport p r =>
      simp only [stepFn] at h
      split at h
      next pr hf =>
        have hmem := List.mem_of_find?_eq_some hf
        have hpred : (pr.ctrlId == p) = true := by
          simpa using List.find?_some hf
        have hne : s.liveProbes ≠ [] := by
          intro h0; rw [h0] at hmem; cases hmem
        have hp : s.pendingTimers = [] := hI.2.2.2 hne
        have hfil : s.liveProbes.filter (fun q => q.ctrlId != p) = [] := by
          rw [eq_singleton_of_mem_of_length_le_one _ pr hmem hI.2.2.1]
          simp [List.filter_cons, bne, hpred]
        split at h
        · obtain rfl := Option.some_inj.mp h
          exact schedulePoll_inv c _ hp hfil
        · cases h
      next => cases h
  | offlineEvt =>
      simp only [stepFn] at h
      obtain rfl := Option.some_inj.mp h
      exact (stopPolling_inv { s with retryState := { s.retryState with isOffline := true } }
        (timerProbeInv_set_retryState s _ hI)).1
  | onlineEvt =>
      have hpr : s.liveProbes = [] := hg rfl
      simp only [stepFn] at h
      obtain rfl := Option.some_inj.mp h
      exact resumePolling_inv c { s with retryState := { s.retryState with isOffline := false } }
        (timerProbeInv_set_retryState s _ hI) hpr
  | visibilityHidden =>
      simp only [stepFn] at h
      obtain rfl := Option.some_inj.mp h
      exact hI
  | visibilityVisible =>
      have hpr : s.liveProbes = [] := hg rfl
      simp only [stepFn] at h
      obtain rfl := Option.some_inj.mp h
      exact resumePolling_inv c { s with isBackgrounded := false }
        (timerProbeInv_set_backgrounded s false hI) hpr
  | batteryLow =>
      simp only [stepFn] at h
      obtain rfl := Option.some_inj.mp h
      exact hI
  | stopCall =>
      simp only [stepFn] at h
      obtain rfl := Option.some_inj.mp h
      exact (stopPolling_inv _ hI).1

theorem initState_inv (c : SWConfig) (sd : Bool) : TimerProbeInv (initState c sd) :=
  ⟨by simp [initState], by simp [initState], by simp [initState], by simp [initState]⟩

theorem guardedReachable_inv (c : SWConfig) (sd : Bool) (s : SWState)
    (h : GuardedReachable c sd s) : TimerProbeInv s := by
  unfold GuardedReachable at h
  induction h with
  | refl => exact initState_inv c sd
  | tail h1 h2 ih =>
      obtain ⟨e, he, hgu⟩ := h2
      exact guardedStep_inv c _ _ e he hgu ih

theorem abortInFlight_pollTimer (s : SWState) :
    (abortInFlight s).pollTimer = s.pollTimer := by
  unfold abortInFlight
  split <;> rfl

theorem clearPollTimer_pollTimer (s : SWState) : (clearPollTimer s).pollTimer = none := by
  unfold clearPollTimer
  split
  · rfl
  next heq => exact heq

theorem abortInFlight_abortController (s : SWState) :
    (abortInFlight s).abortController = none := by
  unfold abortInFlight
  split
  · rfl
  next heq => exact heq

theorem stopPolling_pollTimer (s : SWState) : (stopPolling s).pollTimer = none := by
  unfold stopPolling
  rw [abortInFlight_pollTimer, clearPollTimer_pollTimer]

theorem stopPolling_abortController (s : SWState) :
    (stopPolling s).abortController = none :=
  abortInFlight_abortController (clearPollTimer s)

theorem unregisterAll_eq_nil : ∀ (toRemove registry : List Nat),
    (∀ x ∈ registry, x ∈ toRemove) → unregisterAll registry toRemove = [] := by
  intro toRemove
  induction toRemove with
  | nil =>
      intro registry h
      cases registry with
      | nil => rfl
      | cons a l => exact absurd (h a (List.mem_cons_self a l)) (by simp)
  | cons r rs ih =>
      intro registry h
      unfold unregisterAll
      apply ih
      intro x hx
      have hx12 := List.mem_filter.mp hx
      rcases List.mem_cons.mp (h x hx12.1) with rfl | hmem
      · have := hx12.2
        simp at this
      · exact hmem

theorem registerRun_attempts_le : ∀ (l : List RegAttemptOutcome) (m rc : Nat),
    rc ≤ m → (registerRun m rc l).2 ≤ m + 1 - rc := by
  intro l
  induction l with
  | nil =>
      intro m rc hrc
      simp [registerRun]
  | cons o rest ih =>
      intro m rc hrc
      cases o with
      | success =>
          simp only [registerRun]
          omega
      | err name =>
          unfold registerRun
          by_cases hs : shouldRetryRegistration m rc name = true
          · rw [if_pos hs]
            have hlt : rc < m := by
              unfold shouldRetryRegistration at hs
              split at hs
              · cases hs
              · exact of_decide_eq_true hs
            have hrec := ih m (rc + 1) (by omega)
            show (registerRun m (rc + 1) rest).2 + 1 ≤ m + 1 - rc
            omega
          · rw [if_neg hs]
            show 1 ≤ m + 1 - rc
            omega

theorem registerRun_none_of_transient : ∀ (l : List RegAttemptOutcome) (m rc : Nat),
    (∀ o ∈ l, isTransientFailure o = true) → (registerRun m rc l).1 = none := by
  intro l
  induction l with
  | nil => intro m rc _; rfl
  | cons o rest ih =>
      intro m rc h
      cases o with
      | success =>
          have := h .success (List.mem_cons_self _ _)
          simp [isTransientFailure] at this
      | err name =>
          unfold registerRun
          split
          · exact ih m (rc + 1) (fun o ho => h o (List.mem_cons_of_mem _ ho))
          · rfl

/-- The initial RetryState of a default-config controller. -/
def rsDefault : RetryState :=
  { retryCount := 0, lastAttempt := 0, nextInterval := 30000, isOffline := false }

/-- State reached by: register, timer fires, probe settles 503 with
`Retry-After: 1`. -/
def c1Bad : SWState :=
  { retryState := { retryCount := 1, lastAttempt := 0, nextInterval := 1000, isOffline := false }
    isBackgrounded := false
    saveDataActive := false
    pollTimer := some 2
    abortController := none
    pendingTimers := [(2, 1000)]
    liveProbes := []
    fetchCount := 1
    nextId := 3 }

/-- Claim C1 (counterexample): the claimed invariant
`baseInterval <= nextInterval` fails on a reachable state.  With the default
config, a 5xx response carrying `Retry-After: 1` sets
`nextInterval = min(1 * 1000, maxInterval) = 1000 < 30000 = baseInterval`. -/
theorem C1_counterexample :
    ∃ s, Reachable cDefault false s ∧
      s.retryState.nextInterval < cDefault.baseInterval := by
  refine ⟨c1Bad, runTrace_reachableFrom
    [.registerOk, .timerFire 0, .settle5xx 1 (some 1) (1/2)] _ _ ?_, ?_⟩
  · with_unfolding_all rfl
  · exact of_decide_eq_true (by with_unfolding_all rfl)

/-- Claim C1 (amended): of the claimed two-sided bound only the upper half is
an invariant: for every reachable state of a controller whose config satisfies
`baseInterval <= maxInterval`, `nextInterval <= maxInterval` holds.  The lower
half fails (see the counterexample). -/
theorem C1_amended_interval_upper_bound (c : SWConfig) (sd : Bool) (s : SWState)
    (hc : c.baseInterval ≤ c.maxInterval) (h : Reachable c sd s) :
    s.retryState.nextInterval ≤ c.maxInterval :=
  reachable_nextInterval_le c sd s hc h

theorem C1_witness :
    cDefault.baseInterval ≤ cDefault.maxInterval ∧
    (initState cDefault false).retryState.nextInterval ≤ cDefault.maxInterval :=
  ⟨of_decide_eq_true (by with_unfolding_all rfl),
   C1_amended_interval_upper_bound cDefault false (initState cDefault false)
     (of_decide_eq_true (by with_unfolding_all rfl)) Relation.ReflTransGen.refl⟩

/-- Claim C2 (code bug): `stopPolling()` while a probe is in flight clears the
timer and aborts the probe, but the aborted fetch then settles with an
AbortError, and the `finally` block of `performPoll` unconditionally calls
`schedulePoll`, re-arming the timer; its next fire issues a new network
request -- with no intervening `startPolling`.  The trace below: register,
timer fires (fetch number 1), `stopPolling()` (timer and controller fields
cleared, no timer pending), aborted probe settles (a timer is pending again),
that timer fires (fetch number 2). -/
theorem C2_stop_then_poll_continues :
    (runTrace cDefault (initState cDefault false)
        [.registerOk, .timerFire 0, .stopCall]).map
      (fun s => (s.pollTimer, s.abortController, s.pendingTimers.length, s.fetchCount))
      = some (none, none, 0, 1) ∧
    (runTrace cDefault (initState cDefault false)
        [.registerOk, .timerFire 0, .stopCall, .settleTransport 1 (1/2)]).map
      (fun s => s.pendingTimers.length) = some 1 ∧
    (runTrace cDefault (initState cDefault false)
        [.registerOk, .timerFire 0, .stopCall, .settleTransport 1 (1/2), .timerFire 2]).map
      (fun s => (s.fetchCount, s.liveProbes.length)) = some (2, 1) := by
  refine ⟨?_, ?_, ?_⟩ <;> with_unfolding_all rfl

/-- State with two armed poll timers: register, timer fires, offline (stop,
probe aborted), online (resume arms timer 2), aborted probe settles (its
finally block arms timer 3 while timer 2 is still pending). -/
def c3Bad : SWState :=
  { retryState := { retryCount := 1, lastAttempt := 0, nextInterval := 60000, isOffline := false }
    isBackgrounded := false
    saveDataActive := false
    pollTimer := some 3
    abortController := none
    pendingTimers := [(2, 30000), (3, 60000)]
    liveProbes := []
    fetchCount := 1
    nextId := 4 }

/-- Continuation of `c3Bad`: both timers fire, so two fetches are in flight. -/
def c3Bad2 : SWState :=
  { retryState := { retryCount := 1, lastAttempt := 0, nextInterval := 60000, isOffline := false }
    isBackgrounded := false
    saveDataActive := false
    pollTimer := some 3
    abortController := some 5
    pendingTimers := []
    liveProbes := [{ ctrlId := 4, aborted := false }, { ctrlId := 5, aborted := false }]
    fetchCount := 3
    nextId := 6 }

/-- Claim C3 (counterexample): the single-timer and single-probe invariant
fails: stopping during an in-flight probe and resuming before the aborted
probe settles leaves two armed timers (the settled probe re-arms on top of the
resume-armed timer), and after both fire, two fetches are in flight at once. -/
theorem C3_counterexample :
    ∃ s s2, Reachable cDefault false s ∧ 2 ≤ s.pendingTimers.length ∧
      Reachable cDefault false s2 ∧ 2 ≤ s2.liveProbes.length := by
  refine ⟨c3Bad, c3Bad2,
    runTrace_reachableFrom
      [.registerOk, .timerFire 0, .offlineEvt, .onlineEvt, .settleTransport 1 (1/2)] _ _ ?_,
    ?_,
    runTrace_reachableFrom
      [.registerOk, .timerFire 0, .offlineEvt, .onlineEvt, .settleTransport 1 (1/2),
        .timerFire 2, .timerFire 3] _ _ ?_,
    ?_⟩
  · with_unfolding_all rfl
  · exact of_decide_eq_true (by with_unfolding_all rfl)
  · with_unfolding_all rfl
  · exact of_decide_eq_true (by with_unfolding_all rfl)

/-- Claim C3 (amended): at most one pending poll timer and at most one
in-flight probe hold in every reachable state, provided no polling
(re)start entry point (`register()` success, online resume, visibility
resume) runs while a probe is in flight; without that restriction the
invariant fails (see the counterexample). -/
theorem C3_amended_single_timer_probe (c : SWConfig) (sd : Bool) (s : SWState)
    (h : GuardedReachable c sd s) :
    s.pendingTimers.length ≤ 1 ∧ s.liveProbes.length ≤ 1 := by
  have hI := guardedReachable_inv c sd s h
  exact ⟨hI.1, hI.2.2.1⟩

theorem C3_witness :
    (initState cDefault false).pendingTimers.length ≤ 1 ∧
    (initState cDefault false).liveProbes.length ≤ 1 :=
  C3_amended_single_timer_probe cDefault false (initState cDefault false)
    Relation.ReflTransGen.refl

theorem applyBackoff_none_nextInterval (c : SWConfig) (rs : RetryState) (r : ℚ) :
    (applyBackoff c rs none r).nextInterval
      = min (calculateBackoffDelay c (rs.retryCount + 1) r) c.maxInterval := rfl

theorem jsRound_ge (x : ℚ) (lo : ℤ) (h : (lo : ℚ) ≤ x) : lo ≤ jsRound x := by
  rw [jsRound_eq_round, round_eq]
  refine Int.le_floor.mpr ?_
  linarith

theorem jsRound_le (x : ℚ) (hi : ℤ) (h : x < (hi : ℚ) + 1 / 2) : jsRound x ≤ hi := by
  rw [jsRound_eq_round, round_eq]
  refine Int.floor_le_iff.mpr ?_
  linarith

/-- The jittered and rounded delay stays within one eighth of `E` on either
side whenever `E` is eight times an integer. -/
theorem jsRound_jitter_bounds (E : ℚ) (e : ℤ) (r : ℚ) (hEe : E = 8 * (e : ℚ))
    (hE0 : 0 < E) (hr0 : 0 ≤ r) (hr1 : r < 1) :
    ((7 * e : ℤ) : ℚ) ≤ ((jsRound (E + E * (1 / 4) * (r - 1 / 2)) : ℤ) : ℚ) ∧
    ((jsRound (E + E * (1 / 4) * (r - 1 / 2)) : ℤ) : ℚ) ≤ ((9 * e : ℤ) : ℚ) := by
  have he0 : 0 < (e : ℚ) := by linarith
  have hquarter : (0 : ℚ) ≤ E * (1 / 4) := by linarith
  have key1 : E * (1 / 4) * (-(1 / 2)) ≤ E * (1 / 4) * (r - 1 / 2) :=
    mul_le_mul_of_nonneg_left (by linarith) hquarter
  have key2 : E * (1 / 4) * (r - 1 / 2) < E * (1 / 4) * (1 / 2) :=
    mul_lt_mul_of_pos_left (by linarith) (by linarith)
  constructor
  · have hlo := jsRound_ge (E + E * (1 / 4) * (r - 1 / 2)) (7 * e) (by push_cast; nlinarith)
    exact_mod_cast hlo
  · have hhi := jsRound_le (E + E * (1 / 4) * (r - 1 / 2)) (9 * e) (by push_cast; nlinarith)
    exact_mod_cast hhi

/-- Config with `baseInterval = 5` ms and `maxInterval = 7` ms: legal
(`baseInterval <= maxInterval`) but the clamped exponential value 7 is not a
multiple of 8. -/
def cTiny : SWConfig :=
  mkSWConfig { swUrl := "/sw.js", pingEndpoint := some "/ping", maxRetries := some 5,
               baseInterval := some 5, maxInterval := some 7, enableTelemetry := some false }

/-- The initial RetryState of a `cTiny` controller. -/
def rsTiny : RetryState :=
  { retryCount := 0, lastAttempt := 0, nextInterval := 5, isOffline := false }

/-- Claim C4 (counterexample): the jitter factor is not always inside
`[0.875, 1.125]`: `Math.round` moves the value slightly outside the band when
the clamped exponential delay is not a multiple of 8.  With
`baseInterval = 5`, `maxInterval = 7` and `Math.random() = 0`, the clamped
exponential value is 7, the jittered value is `round(7 - 7/8) = 6`, and
`6 = 7 * (6/7)` with `6/7 < 0.875`. -/
theorem C4_counterexample :
    (applyBackoff cTiny rsTiny none 0).retryCount = 1 ∧
    (applyBackoff cTiny rsTiny none 0).nextInterval = 6 ∧
    ¬ ∃ f : ℚ, 7 / 8 ≤ f ∧ f ≤ 9 / 8 ∧
        (applyBackoff cTiny rsTiny none 0).nextInterval
          = min (cTiny.baseInterval * 2 ^ (0 + 1)) cTiny.maxInterval * f := by
  refine ⟨by with_unfolding_all rfl, by with_unfolding_all rfl, ?_⟩
  rintro ⟨f, h1, h2, h3⟩
  have e1 : (applyBackoff cTiny rsTiny none 0).nextInterval = 6 := by
    with_unfolding_all rfl
  have e2 : min (cTiny.baseInterval * 2 ^ (0 + 1)) cTiny.maxInterval = 7 := by
    with_unfolding_all rfl
  rw [e1, e2] at h3
  linarith

/-- Claim C4 (amended): on a transport failure `retryCount` goes up by exactly
one, `nextInterval` never exceeds `maxInterval`, and
`nextInterval = min(baseInterval * 2 ^ retryCount, maxInterval) * f` for a
jitter factor `f` in `[0.875, 1.125]` -- provided `baseInterval` and
`maxInterval` are positive multiples of 8 ms (otherwise `Math.round` can leave
the band, see the counterexample; the defaults 30000/300000 qualify).  With
the default configuration, three consecutive transport failures give
unjittered intervals 60000, 120000, 240000 (`Math.random() = 0.5` makes the
jitter zero). -/
theorem C4_amended_backoff_jitter :
    (∀ (c : SWConfig) (rs : RetryState) (r : ℚ),
      0 < c.baseInterval → c.baseInterval ≤ c.maxInterval →
      (∃ b : ℤ, c.baseInterval = 8 * (b : ℚ)) → (∃ m : ℤ, c.maxInterval = 8 * (m : ℚ)) →
      0 ≤ r → r < 1 →
      (applyBackoff c rs none r).retryCount = rs.retryCount + 1 ∧
      (applyBackoff c rs none r).nextInterval ≤ c.maxInterval ∧
      ∃ f : ℚ, 7 / 8 ≤ f ∧ f ≤ 9 / 8 ∧
        (applyBackoff c rs none r).nextInterval
          = min (c.baseInterval * 2 ^ (rs.retryCount + 1)) c.maxInterval * f) ∧
    ((applyBackoff cDefault rsDefault none (1/2)).nextInterval = 60000 ∧
     (applyBackoff cDefault (applyBackoff cDefault rsDefault none (1/2))
        none (1/2)).nextInterval = 120000 ∧
     (applyBackoff cDefault (applyBackoff cDefault (applyBackoff cDefault rsDefault
        none (1/2)) none (1/2)) none (1/2)).nextInterval = 240000 ∧
     (applyBackoff cDefault (applyBackoff cDefault (applyBackoff cDefault rsDefault
        none (1/2)) none (1/2)) none (1/2)).retryCount = 3) := by
  constructor
  · rintro c rs r hb hbm ⟨b, hb8⟩ ⟨m, hm8⟩ hr0 hr1
    refine ⟨applyBackoff_retryCount c rs none r, applyBackoff_nextInterval_le c rs none r, ?_⟩
    set k := rs.retryCount + 1 with hk
    set E : ℚ := min (c.baseInterval * 2 ^ k) c.maxInterval with hE
    set e : ℤ := min (b * 2 ^ k) m with he
    have hEe : E = 8 * ((e : ℤ) : ℚ) := by
      have h2 : ((e : ℤ) : ℚ) = min (((b * 2 ^ k : ℤ) : ℚ)) (((m : ℤ) : ℚ)) := by
        rw [he]
        exact Monotone.map_min Int.cast_mono
      rw [hE, h2, mul_min_of_nonneg _ _ (by norm_num : (0 : ℚ) ≤ 8), hb8, hm8]
      push_cast
      ring_nf
    have hm0 : 0 < c.maxInterval := lt_of_lt_of_le hb hbm
    have hE0 : 0 < E := by
      rw [hE]
      exact lt_min (by positivity) hm0
    have hval : (applyBackoff c rs none r).nextInterval
        = min ((jsRound (E + E * (1 / 4) * (r - 1 / 2)) : ℤ) : ℚ) c.maxInterval := rfl
    obtain ⟨hlo, hhi⟩ := jsRound_jitter_bounds E e r hEe hE0 hr0 hr1
    have he0 : 0 < ((e : ℤ) : ℚ) := by linarith
    have hem0 : e ≤ m := by
      rw [he]
      exact min_le_right _ _
    have hem : (e : ℚ) ≤ (m : ℚ) := by exact_mod_cast hem0
    have h7cast : ((7 * e : ℤ) : ℚ) = 7 * (e : ℚ) := by push_cast; ring
    have h9cast : ((9 * e : ℤ) : ℚ) = 9 * (e : ℚ) := by push_cast; ring
    set v : ℚ := ((jsRound (E + E * (1 / 4) * (r - 1 / 2)) : ℤ) : ℚ) with hv
    have hXlo : 7 * (e : ℚ) ≤ min v c.maxInterval := by
      refine le_min ?_ ?_
      · rw [← h7cast]
        exact hlo
      · rw [hm8]
        linarith
    have hXhi : min v c.maxInterval ≤ 9 * (e : ℚ) := by
      refine le_trans (min_le_left _ _) ?_
      rw [← h9cast]
      exact hhi
    refine ⟨min v c.maxInterval / E, ?_, ?_, ?_⟩
    · rw [le_div_iff₀ hE0, hEe]
      linarith
    · rw [div_le_iff₀ hE0, hEe]
      linarith
    · rw [hval, mul_comm]
      exact (div_mul_cancel₀ _ (ne_of_gt hE0)).symm
  · refine ⟨?_, ?_, ?_, ?_⟩ <;> with_unfolding_all rfl

theorem C4_witness :
    (applyBackoff cDefault rsDefault none (1/2)).retryCount = rsDefault.retryCount + 1 ∧
    (applyBackoff cDefault rsDefault none (1/2)).nextInterval ≤ cDefault.maxInterval ∧
    ∃ f : ℚ, 7 / 8 ≤ f ∧ f ≤ 9 / 8 ∧
      (applyBackoff cDefault rsDefault none (1/2)).nextInterval
        = min (cDefault.baseInterval * 2 ^ (rsDefault.retryCount + 1))
            cDefault.maxInterval * f :=
  C4_amended_backoff_jitter.1 cDefault rsDefault (1/2)
    (of_decide_eq_true (by with_unfolding_all rfl))
    (of_decide_eq_true (by with_unfolding_all rfl))
    ⟨3750, by with_unfolding_all rfl⟩
    ⟨37500, by with_unfolding_all rfl⟩
    (of_decide_eq_true (by with_unfolding_all rfl))
    (of_decide_eq_true (by with_unfolding_all rfl))

/-- Claim C5 (counterexample): a negative `Retry-After` is not treated as
invalid: `parseInt("-5") = -5` is not NaN, so the header path runs and sets
`nextInterval = min(-5 * 1000, maxInterval) = -5000`, instead of the
exponential backoff (which would give 60000 here). -/
theorem C5_counterexample :
    (applyBackoff cDefault rsDefault (some (-5)) (1/2)).nextInterval = -5000 ∧
    min (calculateBackoffDelay cDefault 1 (1/2)) cDefault.maxInterval = 60000 ∧
    (applyBackoff cDefault rsDefault (some (-5)) (1/2)).nextInterval ≠
      min (calculateBackoffDelay cDefault 1 (1/2)) cDefault.maxInterval := by
  refine ⟨by with_unfolding_all rfl, by with_unfolding_all rfl,
    of_decide_eq_true (by with_unfolding_all rfl)⟩

/-- Claim C5 (amended): when the Retry-After header parses to an integer `n`
(`parseInt` does not reject negatives), the outcome handler sets
`nextInterval = min(n * 1000, maxInterval)` exactly, with neither the
exponential formula nor jitter applied that cycle; only a missing, empty or
non-parsing (NaN) header falls back to the exponential backoff formula.  In
particular `Retry-After: 60` under the default config gives exactly 60000. -/
theorem C5_amended_retry_after :
    (∀ (c : SWConfig) (rs : RetryState) (n : ℤ) (r : ℚ),
      (applyBackoff c rs (some n) r).retryCount = rs.retryCount + 1 ∧
      (applyBackoff c rs (some n) r).nextInterval = min ((n : ℚ) * 1000) c.maxInterval ∧
      (applyBackoff c rs none r).nextInterval
        = min (calculateBackoffDelay c (rs.retryCount + 1) r) c.maxInterval) ∧
    (applyBackoff cDefault rsDefault (some 60) (1/2)).nextInterval = 60000 :=
  ⟨fun c rs n r => ⟨applyBackoff_retryCount c rs (some n) r, rfl,
    applyBackoff_none_nextInterval c rs r⟩,
   by with_unfolding_all rfl⟩

/-- Claim C6 (counterexample): hiding the tab while `nextInterval = 30000`
does not make the next scheduled delay 120000 in general: the `hidden` handler
itself already quadruples `nextInterval` to 120000, and `calculatePollInterval`
quadruples again at arming time, so immediately after hiding, the delay that
would be used is `min(120000 * 4, 300000) = 300000`; with the in-flight probe
settling 4xx the timer is actually armed with 300000, not 120000. -/
theorem C6_counterexample :
    (runTrace cDefault (initState cDefault false) [.registerOk, .timerFire 0]).map
      (fun s => (s.retryState.nextInterval, s.isBackgrounded)) = some (30000, false) ∧
    (runTrace cDefault (initState cDefault false)
        [.registerOk, .timerFire 0, .visibilityHidden]).map
      (fun s => (s.retryState.nextInterval, calculatePollInterval cDefault s))
      = some (120000, 300000) ∧
    (runTrace cDefault (initState cDefault false)
        [.registerOk, .timerFire 0, .visibilityHidden, .settle4xx 1]).map
      (fun s => s.pendingTimers) = some [(2, 300000)] ∧
    (300000 : ℚ) ≠ 120000 := by
  refine ⟨?_, ?_, ?_, of_decide_eq_true (by with_unfolding_all rfl)⟩ <;>
    with_unfolding_all rfl

/-- Claim C6 (amended): when the tab is backgrounded (and Save-Data is off)
the delay used to arm the timer is `min(nextInterval * 4, maxInterval)`, where
`nextInterval` is the current retry-state value.  But the `hidden` event
handler additionally mutates `nextInterval := min(nextInterval * 4,
maxInterval)` at signal time, so hiding at `nextInterval = 30000` yields a
next-cycle delay of 120000 only when the probe outcome in between resets
`nextInterval` to `baseInterval` (a 2xx, as in the final conjunct); otherwise
the two scalings compound. -/
theorem C6_amended_background_scaling :
    (∀ (c : SWConfig) (s : SWState), s.isBackgrounded = true → s.saveDataActive = false →
      calculatePollInterval c s = min (s.retryState.nextInterval * 4) c.maxInterval) ∧
    (∀ (c : SWConfig) (s s2 : SWState), stepFn c s .visibilityHidden = some s2 →
      s2.retryState.nextInterval = min (s.retryState.nextInterval * 4) c.maxInterval ∧
      s2.isBackgrounded = true) ∧
    (runTrace cDefault (initState cDefault false)
        [.registerOk, .timerFire 0, .visibilityHidden, .settleOk 1]).map
      (fun s => s.pendingTimers) = some [(2, 120000)] := by
  refine ⟨?_, ?_, by with_unfolding_all rfl⟩
  · intro c s h1 h2
    unfold calculatePollInterval
    rw [h1, h2]
    simp
  · intro c s s2 h
    simp only [stepFn] at h
    obtain rfl := Option.some_inj.mp h
    exact ⟨rfl, rfl⟩

/-- Fresh controller state with the tab already hidden. -/
def sHidden : SWState :=
  { initState cDefault false with isBackgrounded := true }

theorem C6_witness :
    calculatePollInterval cDefault sHidden
      = min (sHidden.retryState.nextInterval * 4) cDefault.maxInterval ∧
    ∀ s2, stepFn cDefault (initState cDefault false) .visibilityHidden = some s2 →
      s2.retryState.nextInterval
        = min ((initState cDefault false).retryState.nextInterval * 4) cDefault.maxInterval ∧
      s2.isBackgrounded = true :=
  ⟨C6_amended_background_scaling.1 cDefault sHidden rfl rfl,
   fun s2 h => C6_amended_background_scaling.2.1 cDefault (initState cDefault false) s2 h⟩

/-- Constructor input with `maxRetries: 0`. -/
def iZeroRetries : SWConfigInput :=
  { swUrl := "/sw.js", pingEndpoint := none, maxRetries := some 0,
    baseInterval := none, maxInterval := none, enableTelemetry := none }

/-- Claim C7 (counterexample): `maxRetries = 0` cannot be configured: the
constructor evaluates `config.maxRetries || 5` and 0 is falsy, so the
effective ceiling becomes 5 and a transient error is retried (two attempts
below) although the claim promises zero retries for `maxRetries = 0` (one
attempt, as the third conjunct shows a true zero ceiling would give). -/
theorem C7_counterexample :
    (mkSWConfig iZeroRetries).maxRetries = 5 ∧
    (registerRun (mkSWConfig iZeroRetries).maxRetries 0
      [.err "TypeError", .success]).2 = 2 ∧
    (registerRun 0 0 [.err "TypeError", .success]).2 = 1 := by
  refine ⟨rfl, ?_, ?_⟩ <;> decide

/-- Claim C7 (amended): errors named SecurityError or NotSupportedError make
`register()` return null after exactly one attempt with zero retries; any
other error is retried while `retryCount < maxRetries`, so at most
`maxRetries` retries (`maxRetries + 1` attempts) happen and exhausting them
returns null -- for the effective `maxRetries`.  A configured value `n >= 1`
is used as is, but `0` is coerced to the default 5 by the constructor
(`config.maxRetries || 5`), so a zero-retry configuration is impossible. -/
theorem C7_amended_registration_retry :
    (∀ (m rc : Nat) (name : String) (rest : List RegAttemptOutcome),
      (name = "SecurityError" ∨ name = "NotSupportedError") →
      registerRun m rc (.err name :: rest) = (none, 1)) ∧
    (∀ (m : Nat) (l : List RegAttemptOutcome), (registerRun m 0 l).2 ≤ m + 1) ∧
    (∀ (m : Nat) (l : List RegAttemptOutcome),
      (∀ o ∈ l, isTransientFailure o = true) → (registerRun m 0 l).1 = none) ∧
    (∀ (i : SWConfigInput) (n : Nat), i.maxRetries = some n → n ≠ 0 →
      (mkSWConfig i).maxRetries = n) := by
  refine ⟨?_, ?_, ?_, ?_⟩
  · intro m rc name rest hname
    have hs : shouldRetryRegistration m rc name = false := by
      unfold shouldRetryRegistration
      rw [if_pos hname]
    unfold registerRun
    rw [hs]
    simp
  · intro m l
    have := registerRun_attempts_le l m 0 (Nat.zero_le m)
    omega
  · intro m l h
    exact registerRun_none_of_transient l m 0 h
  · intro i n hin hn
    unfold mkSWConfig orDefaultNat
    rw [hin]
    simp [hn]

/-- Constructor input with `maxRetries: 3`. -/
def iThreeRetries : SWConfigInput :=
  { swUrl := "/sw.js", pingEndpoint := none, maxRetries := some 3,
    baseInterval := none, maxInterval := none, enableTelemetry := none }

theorem C7_witness :
    registerRun 5 0 [.err "SecurityError"] = (none, 1) ∧
    (registerRun 5 0 [.err "TypeError", .err "TypeError"]).1 = none ∧
    (mkSWConfig iThreeRetries).maxRetries = 3 :=
  ⟨C7_amended_registration_retry.1 5 0 "SecurityError" [] (Or.inl rfl),
   C7_amended_registration_retry.2.2.1 5 [.err "TypeError", .err "TypeError"]
     (by intro o ho; fin_cases ho <;> rfl),
   C7_amended_registration_retry.2.2.2 iThreeRetries 3 rfl (by decide)⟩

/-- Environment for the orchestrator: secure origin, no service-worker
capability. -/
def envUnsupported : TraceViewerEnv :=
  { protocol := "https:", serviceWorkerSupported := false, registerResult := none }

/-- Claim C8 (counterexample): with the service-worker capability absent on a
non-`file:` origin, `initializeTraceViewer` does not return null: it throws an
Error (line 31 of the orchestrator, before the try/catch that absorbs
registration failures), so the rejection can propagate to the caller. -/
theorem C8_counterexample :
    initializeTraceViewer envUnsupported = InitOutcome.thrown swUnsupportedMessage ∧
    initializeTraceViewer envUnsupported ≠ InitOutcome.value none :=
  ⟨rfl, fun h => InitOutcome.noConfusion h⟩

/-- Claim C8 (amended): `initializeTraceViewer` returns null without raising
under a `file:` origin; when the capability is present it never throws and a
failed registration is absorbed into a null return; but when the capability is
absent on a non-`file:` origin it throws an Error instead of returning null. -/
theorem C8_amended_init_outcomes :
    (∀ env : TraceViewerEnv, env.protocol = "file:" →
      initializeTraceViewer env = .value none) ∧
    (∀ env : TraceViewerEnv, env.protocol ≠ "file:" → env.serviceWorkerSupported = true →
      initializeTraceViewer env = .value env.registerResult ∧
      ∀ msg, initializeTraceViewer env ≠ .thrown msg) ∧
    (∀ env : TraceViewerEnv, env.protocol ≠ "file:" → env.serviceWorkerSupported = false →
      initializeTraceViewer env = .thrown swUnsupportedMessage) := by
  refine ⟨?_, ?_, ?_⟩
  · intro env h
    unfold initializeTraceViewer
    rw [if_pos h]
  · intro env h1 h2
    have hval : initializeTraceViewer env = .value env.registerResult := by
      unfold initializeTraceViewer
      rw [if_neg h1, h2]
      cases henv : env.registerResult <;> simp
    exact ⟨hval, fun msg h => by rw [hval] at h; exact InitOutcome.noConfusion h⟩
  · intro env h1 h2
    unfold initializeTraceViewer
    rw [if_neg h1, h2]
    rfl

theorem C8_witness :
    initializeTraceViewer
        { protocol := "file:", serviceWorkerSupported := true, registerResult := none }
      = InitOutcome.value none ∧
    initializeTraceViewer
        { protocol := "https:", serviceWorkerSupported := true, registerResult := some () }
      = InitOutcome.value (some ()) :=
  ⟨C8_amended_init_outcomes.1 _ rfl,
   (C8_amended_init_outcomes.2.1 _ (by decide) rfl).1⟩

/-- The config that `initializeTraceViewer` builds when `enablePolling` is
false: `pingEndpoint: undefined`, `maxRetries: 3`, `baseInterval: 60000`,
`maxInterval: 600000`. -/
def cNoPing : SWConfig :=
  mkSWConfig { swUrl := "sw.bundle.js", pingEndpoint := none, maxRetries := some 3,
               baseInterval := some 60000, maxInterval := some 600000,
               enableTelemetry := some false }

/-- Claim C9 (code bug): leaving the health-check endpoint out of the config
does not disable polling.  The constructor evaluates
`config.pingEndpoint || "/ping"`, so an absent endpoint becomes `/ping`;
`register()` then sees a truthy `pingEndpoint`, arms the poll timer, and the
fire issues a health-check fetch.  (This defeats the orchestrator, which
passes `undefined` precisely to disable polling when `enablePolling` is
false.) -/
theorem C9_polling_enabled_without_pingEndpoint :
    cNoPing.pingEndpoint = "/ping" ∧
    (runTrace cNoPing (initState cNoPing false) [.registerOk]).map
      (fun s => s.pendingTimers) = some [(0, 60000)] ∧
    (runTrace cNoPing (initState cNoPing false) [.registerOk, .timerFire 0]).map
      (fun s => s.fetchCount) = some 1 := by
  refine ⟨rfl, ?_, ?_⟩ <;> with_unfolding_all rfl

/-- Claim C10: `unregister()` stops polling (timer field cleared, controller
field cleared) and then unregisters every registration the browser registry
returns for the origin -- `getRegistrations()` is origin-wide, so
registrations this instance never created are removed too: the registry ends
empty and no id of the original registry survives. -/
theorem C10_unregister_removes_all :
    ∀ (s : SWState) (registry : List Nat),
      (unregisterModel s true registry).1.pollTimer = none ∧
      (unregisterModel s true registry).1.abortController = none ∧
      (unregisterModel s true registry).2 = [] ∧
      ∀ x ∈ registry, x ∉ (unregisterModel s true registry).2 := by
  intro s registry
  have hnil : unregisterAll registry registry = [] :=
    unregisterAll_eq_nil registry registry (fun x hx => hx)
  refine ⟨stopPolling_pollTimer s, stopPolling_abortController s, hnil, ?_⟩
  intro x _
  show x ∉ unregisterAll registry registry
  rw [hnil]
  simp

theorem C10_witness :
    (unregisterModel (initState cDefault false) true [7, 8]).2 = [] ∧
    7 ∉ (unregisterModel (initState cDefault false) true [7, 8]).2 :=
  ⟨(C10_unregister_removes_all (initState cDefault false) [7, 8]).2.2.1,
   (C10_unregister_removes_all (initState cDefault false) [7, 8]).2.2.2 7 (by decide)⟩
